import Mathlib

/-!
Verification development for the agent-detection library.

The definitions in this file are a shallow embedding of the TypeScript
sources: JS numbers carried by events are modelled as rationals, computed
feature values and model scores as reals, JS objects used as string-keyed
records as association lists in which the first binding of a key wins
(object spread `{...base, ...upd}` is therefore `upd ++ base`), and
thrown/rejected errors as explicit outcome values.
-/

namespace AgentDetect

/-! ## JS-object maps (association lists, first binding wins) -/

/-- Lookup in an association list; the first binding of the key wins. -/
def flookup {V : Type} : List (String × V) → String → Option V
  | [], _ => none
  | (k, v) :: rest, key => if k = key then some v else flookup rest key

/-! ## Scoring engine (src/agent-detector.ts `scoreFeatures`, src/utils/math-utils.ts `sigmoid`) -/

/-- `sigmoid` from math-utils: `1 / (1 + Math.exp(-logit))`. -/
noncomputable def sigmoid (logit : ℝ) : ℝ := 1 / (1 + Real.exp (-logit))

/-- The linear-sum loop of `AgentDetector.scoreFeatures`: starting from the
bias, walk the weight table and add `featureValue * weight` for each weight
name, skipping names whose feature is absent (`undefined`) in the vector. -/
def linearSum (weights : List (String × ℝ)) (bias : ℝ)
    (features : List (String × ℝ)) : ℝ :=
  weights.foldl (fun acc nv =>
    match flookup features nv.1 with
    | none => acc
    | some v => acc + v * nv.2) bias

/-- The detection result produced by `scoreFeatures`. -/
structure ScoreResult where
  isAgent : Bool
  score : ℝ
  features : List (String × ℝ)

open Classical in
/-- `AgentDetector.scoreFeatures`: linear sum, then sigmoid, then the
threshold verdict `probabilityAgent >= 0.5`. -/
noncomputable def scoreFeatures (weights : List (String × ℝ)) (bias : ℝ)
    (features : List (String × ℝ)) : ScoreResult :=
  let p := sigmoid (linearSum weights bias features)
  ⟨if (0.5 : ℝ) ≤ p then true else false, p, features⟩

/-! ## Pointer Motion extractor (MouseEventExtractor) -/

/-- A `mousemove` payload as consumed by the extractor (coordinates and
producer-supplied timestamp, in milliseconds). -/
structure MousePayload where
  x : ℚ
  y : ℚ
  timestamp : ℚ
deriving DecidableEq

/-- The features produced by the Pointer Motion extractor. -/
structure MouseFeatures where
  avgSpeed : ℝ
  stdSpeed : ℝ
  idleCount : ℝ
  mouseMoveCount : ℝ

/-- `extractFeatures` outcome of the Pointer Motion extractor. -/
structure MouseResult where
  features : MouseFeatures
  hasData : Bool

/-- `MouseEventExtractor.getDefaultFeatures()`. -/
def mouseDefaults : MouseFeatures := ⟨-1, -1, -1, 0⟩

/-- Mean of a list of reals (`reduce / length`). -/
noncomputable def meanR (l : List ℝ) : ℝ := l.sum / l.length

/-- Population standard deviation (simple-statistics `standardDeviation`). -/
noncomputable def popStdR (l : List ℝ) : ℝ :=
  Real.sqrt ((l.map (fun x => (x - meanR l) ^ 2)).sum / l.length)

open Classical in
/-- The loop of `MouseEventExtractor.extractFeatures` over indices `1..n-1`:
accumulates instantaneous speeds (only for strictly positive time deltas),
the idle-gap count (consecutive gap beyond 2000 ms from the running
last-active timestamp), and the running last-active timestamp itself, which
advances when movement occurred or the gap stayed below the threshold. -/
noncomputable def mouseLoop (prev : MousePayload) (lastTs : ℚ)
    (speeds : List ℝ) (idle : ℕ) : List MousePayload → List ℝ × ℕ
  | [] => (speeds, idle)
  | curr :: rest =>
    let timeDiff : ℚ := (curr.timestamp - prev.timestamp) / 1000
    let dist : ℝ :=
      Real.sqrt (((curr.x - prev.x : ℚ) : ℝ) ^ 2 + ((curr.y - prev.y : ℚ) : ℝ) ^ 2)
    let speeds1 := if 0 < timeDiff then speeds ++ [dist / (timeDiff : ℝ)] else speeds
    let idle1 := if 2000 < curr.timestamp - lastTs then idle + 1 else idle
    let lastTs1 := if 0 < dist ∨ timeDiff < 2 then curr.timestamp else lastTs
    mouseLoop curr lastTs1 speeds1 idle1 rest

/-- `MouseEventExtractor.extractFeatures`.  Fewer than 5 samples yield the
default feature set with `hasData = false`; if no speed could be computed the
defaults are returned with only `mouseMoveCount` overridden by the true
sample count; otherwise mean/population-std of the speeds are reported.  The
`isNaN` substitutions of the source are vacuous in the real-number model. -/
noncomputable def mouseExtractFeatures : List MousePayload → MouseResult
  | [] => ⟨mouseDefaults, false⟩
  | m0 :: rest =>
    if (m0 :: rest).length < 5 then ⟨mouseDefaults, false⟩
    else
      let res := mouseLoop m0 m0.timestamp [] 0 rest
      let speeds := res.1
      if speeds.length = 0 then
        ⟨{ mouseDefaults with mouseMoveCount := ((m0 :: rest).length : ℝ) }, false⟩
      else
        ⟨⟨meanR speeds, if 1 < speeds.length then popStdR speeds else 0,
          (res.2 : ℝ), ((m0 :: rest).length : ℝ)⟩, true⟩

/-! ## Event throttle (src/utils/throttle.ts `createThrottledEventHandler`)

The throttled handler closes over `lastProcessedTimestamp` (initially `0`)
and at most one pending payload.  We model an execution as a sequence of
steps: an event arrival, or the firing of a scheduled deferred flush.  A
scheduled flush captured its payload, and fires only if that payload is
still the pending one; payloads are modelled by their timestamps (distinct
in every trace we consider, so equality coincides with JS identity). -/

/-- Closure state of a throttled handler. -/
structure ThrottleState where
  lastProcessed : ℚ
  pending : Option ℚ
deriving DecidableEq

/-- One scheduling step: an event arrives, or the deferred flush scheduled
for the given captured payload fires. -/
inductive ThrottleStep where
  | arrive (t : ℚ)
  | fire (t : ℚ)
deriving DecidableEq

/-- One step of the throttled handler.  Returns the new closure state and
the handler invocation it caused, if any; the `Bool` is true when the
invocation came from the deferred trailing flush. -/
def throttleStep (window : ℚ) (st : ThrottleState) :
    ThrottleStep → ThrottleState × Option (ℚ × Bool)
  | .arrive t =>
    if st.lastProcessed = 0 ∨ window ≤ t - st.lastProcessed then
      (⟨t, none⟩, some (t, false))
    else
      (⟨st.lastProcessed, some t⟩, none)
  | .fire t =>
    if st.pending = some t then (⟨t, none⟩, some (t, true))
    else (st, none)

/-- Run a throttled handler from the initial closure state over a step
sequence, collecting the handler invocation log. -/
def throttleRun (window : ℚ) (steps : List ThrottleStep) : List (ℚ × Bool) :=
  (steps.foldl
    (fun acc step =>
      let r := throttleStep window acc.1 step
      (r.1, match r.2 with | none => acc.2 | some e => acc.2 ++ [e]))
    ((⟨0, none⟩ : ThrottleState), ([] : List (ℚ × Bool)))).2

/-! ## Keyboard extractor (KeyboardEventExtractor)

Key events enter the consistency computation only through their timestamps,
so key events are modelled as timestamps. -/

/-- Stable insertion sort on rationals, modelling the stable JS
`sort((a, b) => a.timestamp - b.timestamp)`. -/
def insertQ (x : ℚ) : List ℚ → List ℚ
  | [] => [x]
  | y :: ys => if y ≤ x then y :: insertQ x ys else x :: y :: ys

/-- Sort a list of timestamps ascending. -/
def sortQ : List ℚ → List ℚ
  | [] => []
  | x :: xs => insertQ x (sortQ xs)

/-- Burst segmentation of `calculateTypingConsistency`: walk the sorted
events, split whenever the inter-event gap exceeds the threshold, and keep
only bursts of length above 1 (both at a split and for the final burst). -/
def burstLoop (thr : ℚ) (prev : ℚ) (cur : List ℚ) : List ℚ → List (List ℚ)
  | [] => if 1 < cur.length then [cur] else []
  | t :: rest =>
    if thr < t - prev then
      (if 1 < cur.length then [cur] else []) ++ burstLoop thr t [t] rest
    else
      burstLoop thr t (cur ++ [t]) rest

/-- The burst groups of a key-event list (threshold 3000 ms). -/
def bursts (evs : List ℚ) : List (List ℚ) :=
  match sortQ evs with
  | [] => []
  | t :: rest => burstLoop 3000 t [t] rest

/-- Inter-event intervals of a burst. -/
def intervalsOf : List ℚ → List ℚ
  | [] => []
  | [_] => []
  | a :: b :: rest => (b - a) :: intervalsOf (b :: rest)

/-- Mean of a list of rationals (`reduce / length`; `0` on the empty list,
matching the guarded uses in the source). -/
def meanQ (l : List ℚ) : ℚ := l.sum / l.length

/-- Population standard deviation of rational data (simple-statistics
`standardDeviation`), as a real number. -/
noncomputable def popStdQ (l : List ℚ) : ℝ :=
  Real.sqrt (((l.map (fun x => (x - meanQ l) ^ 2)).sum / l.length : ℚ) : ℝ)

/-- Per-burst coefficient of variation: `std/mean` of the inter-key
intervals when the mean is positive, `0` otherwise (and `0` for an empty
interval list, and std `0` for a single interval). -/
noncomputable def burstCV (burst : List ℚ) : ℝ :=
  let ivs := intervalsOf burst
  if ivs.length = 0 then 0
  else
    let sd : ℝ := if 1 < ivs.length then popStdQ ivs else 0
    let m := meanQ ivs
    if 0 < m then sd / (m : ℝ) else 0

/-- `KeyboardEventExtractor.calculateTypingConsistency`: `-1` for fewer than
2 events or no valid burst, else `1 - min(average CV across bursts, 1)`. -/
noncomputable def typingConsistency (evs : List ℚ) : ℝ :=
  if evs.length < 2 then -1
  else
    let bs := bursts evs
    if bs.length = 0 then -1
    else
      let cvs := bs.map burstCV
      1 - min (cvs.sum / (cvs.length : ℝ)) 1

/-- Keyboard feature set. -/
structure KeyboardFeatures where
  hasTypingEvents : Bool
  keyboardTypingConsistency : ℝ

/-- `extractFeatures` outcome of the keyboard extractor. -/
structure KeyboardResult where
  features : KeyboardFeatures
  hasData : Bool

/-- `KeyboardEventExtractor.extractFeatures`. -/
noncomputable def keyboardExtractFeatures (evs : List ℚ) : KeyboardResult :=
  ⟨⟨decide (0 < evs.length), typingConsistency evs⟩, decide (0 < evs.length)⟩

/-! ## Scroll and click extractors (ScrollEventExtractor, ClickEventExtractor)

Both cluster timestamp-sorted events into maximal runs with consecutive
gaps below 50 ms and report whether any run holds more than one event; the
events enter only through their timestamps. -/

/-- The run-grouping loop shared by `hasActiveScrolling` and
`hasActiveMouseMovements`: extend the current run while the gap to the
previous event stays below the threshold, otherwise emit it and restart. -/
def runGroups (thr : ℚ) (prev : ℚ) (cur : List ℚ) : List ℚ → List (List ℚ)
  | [] => [cur]
  | t :: rest =>
    if t - prev < thr then runGroups thr t (cur ++ [t]) rest
    else cur :: runGroups thr t [t] rest

/-- Whether some maximal sub-50 ms run contains more than one event
(`false` below 2 events). -/
def hasActiveRuns (events : List ℚ) : Bool :=
  if events.length < 2 then false
  else
    match sortQ events with
    | [] => false
    | t :: rest => (runGroups 50 t [t] rest).any fun g => decide (1 < g.length)

/-- Scroll feature set. -/
structure ScrollFeatures where
  hasScrollEvents : Bool
  hasActiveScrolling : Bool
deriving DecidableEq

/-- `extractFeatures` outcome of the scroll extractor. -/
structure ScrollResult where
  features : ScrollFeatures
  hasData : Bool
deriving DecidableEq

/-- `ScrollEventExtractor.extractFeatures`. -/
def scrollExtractFeatures (events : List ℚ) : ScrollResult :=
  ⟨⟨decide (0 < events.length), hasActiveRuns events⟩, decide (0 < events.length)⟩

/-- Click/pointer-activity feature set. -/
structure ClickFeatures where
  hasMouseEvents : Bool
  hasClickEvents : Bool
  hasActiveMouseMovement : Bool
deriving DecidableEq

/-- `extractFeatures` outcome of the click extractor. -/
structure ClickResult where
  features : ClickFeatures
  hasData : Bool
deriving DecidableEq

/-- `ClickEventExtractor.extractFeatures`. -/
def clickExtractFeatures (mouseMoves clicks : List ℚ) : ClickResult :=
  ⟨⟨decide (0 < mouseMoves.length), decide (0 < clicks.length),
    hasActiveRuns mouseMoves⟩,
   decide (0 < mouseMoves.length) || decide (0 < clicks.length)⟩

/-! ## Browser metadata extractor (BrowserMetadataExtractor)

The raw metadata snapshot mirrors the fields read by `extractFeatures`,
each optional because the adapter may not supply it.  The source field
`devicePixelRatio` is carried here as `devicePixelDensity`. -/

/-- WebGL part of the snapshot. -/
structure WebglData where
  webglVendor : Option String
  webglRenderer : Option String
  webglExtensions : Option ℚ
deriving DecidableEq

/-- Width/height pair. -/
structure Dimensions where
  width : ℚ
  height : ℚ
deriving DecidableEq

/-- Raw browser metadata as consumed by the extractor. -/
structure BrowserMetadataSnapshot where
  devicePixelDensity : Option ℚ
  screenResolution : Option Dimensions
  screenAvailResolution : Option Dimensions
  colorDepth : Option ℚ
  plugins : Option (List String)
  deviceMemory : Option ℚ
  hardwareConcurrency : Option ℚ
  touchSupport : Option Bool
  maxTouchPoints : Option ℚ
  mediaDevicesCount : Option ℚ
  platform : Option String
  doNotTrack : Option String
  webdriver : Option Bool
  cookieEnabled : Option Bool
  timezoneOffset : Option ℚ
  timeZone : Option String
  webglInfo : Option WebglData
deriving DecidableEq

/-- The feature set of the metadata extractor (`devicePixelRatio` of the
source is carried as `devicePixelDensity`). -/
structure BrowserMetadataFeatures where
  devicePixelDensity : ℚ
  screenWidth : ℚ
  screenHeight : ℚ
  screenAvailWidth : ℚ
  screenAvailHeight : ℚ
  screenColorDepth : ℚ
  plugins : ℚ
  deviceMemory : ℚ
  hardwareConcurrency : ℚ
  touchSupport : Bool
  maxTouchPoints : ℚ
  platform : String
  doNotTrack : String
  webdriver : Bool
  cookieEnabled : Bool
  timezoneOffset : ℚ
  timeZone : String
  mediaDevices : ℚ
  hasWebglSwiftshader : Bool
deriving DecidableEq

/-- `BrowserMetadataExtractor.getDefaultFeatures()`. -/
def browserMetadataDefaults : BrowserMetadataFeatures :=
  { devicePixelDensity := -1
    screenWidth := -1
    screenHeight := -1
    screenAvailWidth := -1
    screenAvailHeight := -1
    screenColorDepth := -1
    plugins := 0
    deviceMemory := -1
    hardwareConcurrency := -1
    touchSupport := false
    maxTouchPoints := 0
    platform := "unknown"
    doNotTrack := "unspecified"
    webdriver := false
    cookieEnabled := false
    timezoneOffset := -999
    timeZone := "unknown"
    mediaDevices := 0
    hasWebglSwiftshader := false }

/-- JS `String.prototype.includes`, encoded via `splitOn`: the substring
occurs iff splitting on it yields more than one fragment. -/
def containsSubstring (s sub : String) : Bool := decide (1 < (s.splitOn sub).length)

/-- Result of awaiting `metadataProvider.getMetadata()`: the snapshot, or a
thrown/rejected error. -/
inductive MetadataFetch where
  | ok (md : BrowserMetadataSnapshot)
  | failed
deriving DecidableEq

/-- `extractFeatures` outcome of the metadata extractor. -/
structure BrowserMetadataResult where
  features : BrowserMetadataFeatures
  hasData : Bool
deriving DecidableEq

/-- `BrowserMetadataExtractor.extractFeatures`: on a successful fetch every
present field is mapped onto its feature (missing fields fall back to the
default sentinel) and `hasData` is `true`; a failed fetch is caught and
yields the defaults with `hasData = false`. -/
def browserMetadataExtract : MetadataFetch → BrowserMetadataResult
  | .failed => ⟨browserMetadataDefaults, false⟩
  | .ok md =>
    let d := browserMetadataDefaults
    ⟨{ devicePixelDensity := md.devicePixelDensity.getD d.devicePixelDensity
       screenWidth := (md.screenResolution.map Dimensions.width).getD d.screenWidth
       screenHeight := (md.screenResolution.map Dimensions.height).getD d.screenHeight
       screenAvailWidth :=
         (md.screenAvailResolution.map Dimensions.width).getD d.screenAvailWidth
       screenAvailHeight :=
         (md.screenAvailResolution.map Dimensions.height).getD d.screenAvailHeight
       screenColorDepth := md.colorDepth.getD d.screenColorDepth
       plugins := (md.plugins.map fun p => (p.length : ℚ)).getD d.plugins
       deviceMemory := md.deviceMemory.getD d.deviceMemory
       hardwareConcurrency := md.hardwareConcurrency.getD d.hardwareConcurrency
       touchSupport := md.touchSupport.getD d.touchSupport
       maxTouchPoints := md.maxTouchPoints.getD d.maxTouchPoints
       mediaDevices := md.mediaDevicesCount.getD d.mediaDevices
       platform := md.platform.getD d.platform
       doNotTrack := md.doNotTrack.getD d.doNotTrack
       webdriver := md.webdriver.getD d.webdriver
       cookieEnabled := md.cookieEnabled.getD d.cookieEnabled
       timezoneOffset := md.timezoneOffset.getD d.timezoneOffset
       timeZone := md.timeZone.getD d.timeZone
       hasWebglSwiftshader :=
         ((md.webglInfo.bind WebglData.webglRenderer).map
           fun r => containsSubstring r "SwiftShader").getD d.hasWebglSwiftshader },
     true⟩

/-! ## Replay engine (ReplayEventAdapter.start, non-real-time) -/

/-- A recorded replay event: its declared type and recorded timestamp (the
remaining payload fields are passed through unchanged). -/
structure ReplayEvent where
  type : String
  timestamp : ℚ
deriving DecidableEq

/-- The dispatch log of `ReplayEventAdapter.start`: an empty recording
returns at once; otherwise each event is dispatched in recorded order to
every handler registered for its type (handlers identified by number),
carrying the recorded timestamp. -/
def replayStartLog (events : List ReplayEvent)
    (listeners : List (String × ℕ)) : List (ℕ × ℚ) :=
  if events.length = 0 then []
  else
    events.flatMap fun e =>
      (listeners.filter fun l => l.1 = e.type).map fun l => (l.2, e.timestamp)

/-! ## Extraction cycle of the detector (AgentDetector.extractFeatures)

Each extractor is queried; a throw/rejection is caught and replaced by the
defaults of that extractor with `hasData = false`, while a successful result is
spread over the defaults (`{...defaults, ...features}`).  The per-extractor
feature objects are then merged into one vector with `Object.assign`, later
extractors overriding earlier ones.  Feature values are numbers, booleans
or strings. -/

/-- An untyped JS feature value. -/
inductive FeatValue where
  | num (q : ℚ)
  | boolv (b : Bool)
  | str (s : String)
deriving DecidableEq

/-- A generic `{features, hasData}` pair. -/
structure FeatureOutcome where
  features : List (String × FeatValue)
  hasData : Bool
deriving DecidableEq

/-- The awaited result of the `extractFeatures()` call of one extractor: its
resolved value or the caught error message. -/
inductive ExtractionAttempt where
  | ok (fr : FeatureOutcome)
  | failed (msg : String)
deriving DecidableEq

/-- One extractor as seen by the detection cycle: its
`getDefaultFeatures()` set and what awaiting `extractFeatures()` does. -/
structure ExtractorSpec where
  defaults : List (String × FeatValue)
  outcome : ExtractionAttempt
deriving DecidableEq

/-- The per-extractor branch of `AgentDetector.extractFeatures`: success
spreads the produced features over the defaults, a caught failure yields
the defaults with `hasData = false`. -/
def extractOne (e : ExtractorSpec) : FeatureOutcome :=
  match e.outcome with
  | .ok fr => ⟨fr.features ++ e.defaults, fr.hasData⟩
  | .failed _ => ⟨e.defaults, false⟩

/-- The merge loop of `AgentDetector.extractFeatures`:
`Object.assign(combined, result.features)` over all extractor results in
order, later extractors overriding earlier ones. -/
def combineCycle (es : List ExtractorSpec) : List (String × FeatValue) :=
  (es.map extractOne).foldl (fun acc r => r.features ++ acc) []

/-- Reference reading of the merged vector: the last extractor that binds a
key provides its value. -/
def mergedLookup (rs : List FeatureOutcome) (k : String) : Option FeatValue :=
  rs.foldl (fun a r => (flookup r.features k).orElse fun _ => a) none

/-! ## Detector lifecycle state machine (AgentDetector)

The lifecycle flags of `AgentDetector` and the listening state of its
`ExtractorsManager`.  A detection cycle can only throw for missing model
parameters (per-extractor failures are absorbed, see `extractOne`), so the
cycle is abstracted by the `modelLoaded` flag plus a counter of completed
cycles; `stopCount` counts the actual handler-deregistration teardowns
performed by `ExtractorsManager.stopListening`. -/

/-- Listening state of the extractors manager. -/
structure ManagerState where
  isActive : Bool
  stopCount : ℕ
deriving DecidableEq

/-- `ExtractorsManager.startListening` (idempotent). -/
def managerStartListening (m : ManagerState) : ManagerState :=
  if m.isActive then m else ⟨true, m.stopCount⟩

/-- `ExtractorsManager.stopListening` (idempotent): tears down handlers only
when currently active. -/
def managerStopListening (m : ManagerState) : ManagerState :=
  if m.isActive then ⟨false, m.stopCount + 1⟩ else m

/-- Detector lifecycle state. -/
structure DetectorState where
  initialized : Bool
  modelLoaded : Bool
  isDetectionActive : Bool
  isDetectionFinalizing : Bool
  manager : ManagerState
  detectCount : ℕ
deriving DecidableEq

/-- How a public call returns to the caller: a normal return, or a thrown
error (a rejected promise for the async methods). -/
inductive CallOutcome where
  | returned
  | threw (msg : String)
deriving DecidableEq

/-- `AgentDetector._performDetection`: throws when model parameters are not
loaded (from `extractFeatures`/`scoreFeatures`), otherwise completes one
cycle. -/
def performDetection (s : DetectorState) : DetectorState × CallOutcome :=
  if s.modelLoaded then ({ s with detectCount := s.detectCount + 1 }, .returned)
  else (s, .threw "Model parameters not loaded.")

/-- `AgentDetector.startDetection`: logs and returns `this` when not
initialized or already active, otherwise flips the detection flags and arms
listening. -/
def startDetection (s : DetectorState) : DetectorState × CallOutcome :=
  if s.initialized = false then (s, .returned)
  else if s.isDetectionActive then (s, .returned)
  else
    ({ s with isDetectionActive := true, isDetectionFinalizing := false,
              manager := managerStartListening s.manager }, .returned)

/-- `AgentDetector.getCurrentDetectionResult`: throws when not initialized,
otherwise runs one cycle without changing the lifecycle flags (the catch
logs and rethrows). -/
def getCurrentDetectionResult (s : DetectorState) : DetectorState × CallOutcome :=
  if s.initialized = false then
    (s, .threw "AgentDetector not initialized. Call init() first.")
  else performDetection s

/-- `AgentDetector.finalizeDetection`: throws when not initialized; when
already finalizing, re-runs a cycle and returns without tearing down again;
otherwise runs a cycle, stops listening and resets the flags (on a cycle
error the finalizing flag is reset and the error rethrown). -/
def finalizeDetection (s : DetectorState) : DetectorState × CallOutcome :=
  if s.initialized = false then
    (s, .threw "AgentDetector not initialized. Call init() first.")
  else if s.isDetectionFinalizing then performDetection s
  else
    let s1 := { s with isDetectionFinalizing := true }
    match performDetection s1 with
    | (s2, .returned) =>
      ({ s2 with manager := managerStopListening s2.manager,
                 isDetectionActive := false, isDetectionFinalizing := false },
       .returned)
    | (s2, .threw m) => ({ s2 with isDetectionFinalizing := false }, .threw m)

/-! ## Browser event storage (BrowserEventStorage.flush)

`flush` early-returns on an empty buffer or an in-flight flush; otherwise
it copies the buffer, clears it, and awaits the batched write.  Events may
be appended to the (now cleared) buffer while the write is in flight; they
are the `arrived` parameter.  On success the batch reaches the store; on
failure the catch block sets the buffer to the concatenation of the current
buffer with itself. -/

/-- Storage state: the in-memory buffer, the flush guard, and the durably
stored events. -/
structure StorageState (α : Type) where
  buffer : List α
  isFlushPending : Bool
  stored : List α
deriving DecidableEq

/-- `BrowserEventStorage.flush`, parametrised by whether the batched write
succeeds and by the events appended while it was in flight. -/
def flushRun {α : Type} (s : StorageState α) (writeOk : Bool)
    (arrived : List α) : StorageState α :=
  if s.buffer.length = 0 ∨ s.isFlushPending = true then s
  else if writeOk then ⟨arrived, false, s.stored ++ s.buffer⟩
  else ⟨arrived ++ arrived, false, s.stored⟩

/-- An all-absent metadata snapshot. -/
def emptyMetadataSnapshot : BrowserMetadataSnapshot :=
  ⟨none, none, none, none, none, none, none, none, none, none, none, none,
   none, none, none, none, none⟩

/-! ## Helper lemmas -/

/-- Association-list lookup distributes over append (object spread). -/
theorem flookup_append {V : Type} (a b : List (String × V)) (k : String) :
    flookup (a ++ b) k = (flookup a k).orElse fun _ => flookup b k := by
  induction a with
  | nil => rfl
  | cons kv rest ih =>
    by_cases h : kv.1 = k
    · simp [flookup, h, Option.orElse]
    · simp [flookup, h, ih]

/-- The linear-sum fold equals its start plus the sum over exactly the
present weighted features. -/
theorem linearSum_eq_sum (w : List (String × ℝ)) (acc : ℝ)
    (f : List (String × ℝ)) :
    (w.foldl (fun acc nv =>
        match flookup f nv.1 with
        | none => acc
        | some v => acc + v * nv.2) acc)
      = acc + (w.filterMap fun nv => (flookup f nv.1).map (· * nv.2)).sum := by
  induction w generalizing acc with
  | nil => simp
  | cons nv rest ih =>
    rcases h : flookup f nv.1 with _ | v
    · simp only [List.foldl_cons, List.filterMap_cons, h, Option.map_none']
      exact ih acc
    · simp only [List.foldl_cons, List.filterMap_cons, h, Option.map_some',
        List.sum_cons]
      rw [ih (acc + v * nv.2)]
      ring

/-- The sigmoid is nonnegative. -/
theorem sigmoid_nonneg (x : ℝ) : 0 ≤ sigmoid x := by
  have hx := Real.exp_pos (-x)
  unfold sigmoid
  apply div_nonneg <;> linarith

/-- The sigmoid is at most one. -/
theorem sigmoid_le_one (x : ℝ) : sigmoid x ≤ 1 := by
  have hx := Real.exp_pos (-x)
  unfold sigmoid
  rw [div_le_one (by linarith)]
  linarith

/-- Claim C1: scoring computes bias plus the sum of `weight · value` over
exactly the weight names present in the feature vector (absent weighted
features contribute nothing), applies the sigmoid, the resulting score lies
in `[0, 1]`, and `isAgent` holds exactly when the score is at least 0.5. -/
theorem scoring_linear_sigmoid_c1 (w : List (String × ℝ)) (b : ℝ)
    (f : List (String × ℝ)) :
    (scoreFeatures w b f).score
        = sigmoid (b + (w.filterMap fun nv => (flookup f nv.1).map (· * nv.2)).sum)
      ∧ 0 ≤ (scoreFeatures w b f).score
      ∧ (scoreFeatures w b f).score ≤ 1
      ∧ ((scoreFeatures w b f).isAgent = true ↔
          (0.5 : ℝ) ≤ (scoreFeatures w b f).score) := by
  have hscore : (scoreFeatures w b f).score = sigmoid (linearSum w b f) := rfl
  have hsum : linearSum w b f
      = b + (w.filterMap fun nv => (flookup f nv.1).map (· * nv.2)).sum :=
    linearSum_eq_sum w b f
  refine ⟨by rw [hscore, hsum], ?_, ?_, ?_⟩
  · rw [hscore]; exact sigmoid_nonneg _
  · rw [hscore]; exact sigmoid_le_one _
  · show (if (0.5 : ℝ) ≤ sigmoid (linearSum w b f) then true else false) = true ↔ _
    rw [hscore]
    by_cases h : (0.5 : ℝ) ≤ sigmoid (linearSum w b f)
    · rw [if_pos h]; simp [h]
    · rw [if_neg h]; simp [h]

/-- Claim C2 counterexample: with a single recorded sample the extractor
reports `mouseMoveCount = 0`, not the true sample count 1. -/
theorem mouse_count_counterexample_c2 :
    (mouseExtractFeatures [⟨0, 0, 0⟩]).features.mouseMoveCount
      ≠ (([(⟨0, 0, 0⟩ : MousePayload)]).length : ℝ) := by
  have h : mouseExtractFeatures [⟨0, 0, 0⟩] = ⟨⟨-1, -1, -1, 0⟩, false⟩ := rfl
  rw [h]
  norm_num

/-- Claim C2 (amended): below 5 samples the extractor reports
`hasData = false` and exactly the default sentinel set
`{avgSpeed: -1, stdSpeed: -1, idleCount: -1, mouseMoveCount: 0}`;
`mouseMoveCount` stays 0 regardless of the true sample count. -/
theorem mouse_under_threshold_sentinel_c2 (moves : List MousePayload)
    (h : moves.length < 5) :
    mouseExtractFeatures moves = ⟨⟨-1, -1, -1, 0⟩, false⟩ := by
  cases moves with
  | nil => rfl
  | cons m0 rest =>
    simp only [mouseExtractFeatures]
    rw [if_pos h]
    rfl

/-- Witness for C2 at one recorded sample. -/
theorem mouse_under_threshold_sentinel_c2_witness :
    ([(⟨0, 0, 0⟩ : MousePayload)]).length < 5 ∧
      mouseExtractFeatures [⟨0, 0, 0⟩] = ⟨⟨-1, -1, -1, 0⟩, false⟩ :=
  ⟨by decide, mouse_under_threshold_sentinel_c2 _ (by decide)⟩

/-- With nowhere-increasing timestamps no instantaneous speed is ever
accumulated by the extraction loop. -/
theorem mouseLoop_speeds_of_nonpos (rest : List MousePayload) :
    ∀ (prev : MousePayload) (lastTs : ℚ) (idle : ℕ),
      List.Chain (fun p q => q.timestamp ≤ p.timestamp) prev rest →
      (mouseLoop prev lastTs [] idle rest).1 = [] := by
  induction rest with
  | nil => intro prev lastTs idle _; rfl
  | cons c rs ih =>
    intro prev lastTs idle hch
    cases hch with
    | cons hle hch =>
      have h1 : c.timestamp - prev.timestamp ≤ 0 := by linarith
      have hneg : ¬ (0 < (c.timestamp - prev.timestamp) / 1000) := by
        have h2 : (c.timestamp - prev.timestamp) / 1000 ≤ 0 := by
          have := (div_le_div_iff_of_pos_right
            (show (0 : ℚ) < 1000 by norm_num)).mpr h1
          simpa using this
        exact not_lt.mpr h2
      simp only [mouseLoop]
      rw [if_neg hneg]
      exact ih c _ _ hch

/-- Claim C10: with at least 5 samples none of whose consecutive pairs has
a strictly positive time delta, extraction reports `hasData = false` with
the sentinel speed features, but `mouseMoveCount` equal to the true sample
count. -/
theorem mouse_no_positive_delta_c10 (moves : List MousePayload)
    (h5 : 5 ≤ moves.length)
    (hmono : List.Chain' (fun p q => q.timestamp ≤ p.timestamp) moves) :
    mouseExtractFeatures moves
      = ⟨⟨-1, -1, -1, (moves.length : ℝ)⟩, false⟩ := by
  cases moves with
  | nil => simp at h5
  | cons m0 rest =>
    have hch : List.Chain (fun p q => q.timestamp ≤ p.timestamp) m0 rest := hmono
    have hsp : (mouseLoop m0 m0.timestamp [] 0 rest).1 = [] :=
      mouseLoop_speeds_of_nonpos rest m0 m0.timestamp 0 hch
    simp only [mouseExtractFeatures]
    rw [if_neg (by omega), hsp]
    rfl

/-- Witness for C10 at five samples sharing one timestamp. -/
theorem mouse_no_positive_delta_c10_witness :
    (5 ≤ ([⟨0, 0, 0⟩, ⟨1, 0, 0⟩, ⟨2, 0, 0⟩, ⟨3, 0, 0⟩, ⟨4, 0, 0⟩] :
        List MousePayload).length ∧
      List.Chain' (fun p q => q.timestamp ≤ p.timestamp)
        ([⟨0, 0, 0⟩, ⟨1, 0, 0⟩, ⟨2, 0, 0⟩, ⟨3, 0, 0⟩, ⟨4, 0, 0⟩] :
          List MousePayload)) ∧
    mouseExtractFeatures
        [⟨0, 0, 0⟩, ⟨1, 0, 0⟩, ⟨2, 0, 0⟩, ⟨3, 0, 0⟩, ⟨4, 0, 0⟩]
      = ⟨⟨-1, -1, -1,
          ((([⟨0, 0, 0⟩, ⟨1, 0, 0⟩, ⟨2, 0, 0⟩, ⟨3, 0, 0⟩, ⟨4, 0, 0⟩] :
            List MousePayload).length : ℕ) : ℝ)⟩, false⟩ :=
  ⟨⟨by decide, by simp [List.chain'_cons]⟩,
    mouse_no_positive_delta_c10 _ (by decide) (by simp [List.chain'_cons])⟩

/-- Claim C3 counterexample: on an uninitialized detector `startDetection`
returns normally instead of surfacing a thrown error. -/
theorem start_detection_no_throw_counterexample_c3 :
    (startDetection ⟨false, false, false, false, ⟨false, 0⟩, 0⟩).2
        = CallOutcome.returned
      ∧ CallOutcome.returned
        ≠ CallOutcome.threw "AgentDetector not initialized. Call init() first." := by
  exact ⟨rfl, by decide⟩

/-- Claim C3 (amended): on an uninitialized detector,
`getCurrentDetectionResult` and `finalizeDetection` surface the descriptive
not-initialized error as a thrown error, while `startDetection` only logs
and returns the detector unchanged without throwing. -/
theorem uninitialized_calls_c3 (s : DetectorState) (h : s.initialized = false) :
    (getCurrentDetectionResult s).2
        = .threw "AgentDetector not initialized. Call init() first."
      ∧ (finalizeDetection s).2
        = .threw "AgentDetector not initialized. Call init() first."
      ∧ startDetection s = (s, .returned) := by
  refine ⟨?_, ?_, ?_⟩
  · unfold getCurrentDetectionResult
    rw [if_pos h]
  · unfold finalizeDetection
    rw [if_pos h]
  · unfold startDetection
    rw [if_pos h]

/-- Witness for C3 on a concrete uninitialized state. -/
theorem uninitialized_calls_c3_witness :
    ((⟨false, false, false, false, ⟨false, 0⟩, 0⟩ : DetectorState).initialized
        = false)
      ∧ (getCurrentDetectionResult ⟨false, false, false, false, ⟨false, 0⟩, 0⟩).2
          = .threw "AgentDetector not initialized. Call init() first."
      ∧ (finalizeDetection ⟨false, false, false, false, ⟨false, 0⟩, 0⟩).2
          = .threw "AgentDetector not initialized. Call init() first."
      ∧ startDetection ⟨false, false, false, false, ⟨false, 0⟩, 0⟩
          = (⟨false, false, false, false, ⟨false, 0⟩, 0⟩, .returned) := by
  refine ⟨by decide, ?_⟩
  have h := uninitialized_calls_c3 ⟨false, false, false, false, ⟨false, 0⟩, 0⟩ (by decide)
  exact h

/-- Claim C6: on an initialized, active detector with loaded model
parameters, two sequential `finalizeDetection` calls both return a result
without throwing, both run a detection cycle, and the handler teardown is
executed exactly once (the second teardown is a no-op on the manager). -/
theorem finalize_twice_c6 (s : DetectorState)
    (hinit : s.initialized = true) (hmodel : s.modelLoaded = true)
    (_hactive : s.isDetectionActive = true)
    (hfin : s.isDetectionFinalizing = false)
    (hmgr : s.manager.isActive = true) :
    (finalizeDetection s).2 = .returned
      ∧ (finalizeDetection (finalizeDetection s).1).2 = .returned
      ∧ (finalizeDetection s).1.manager.stopCount = s.manager.stopCount + 1
      ∧ (finalizeDetection (finalizeDetection s).1).1.manager
          = (finalizeDetection s).1.manager
      ∧ (finalizeDetection s).1.detectCount = s.detectCount + 1
      ∧ (finalizeDetection (finalizeDetection s).1).1.detectCount
          = s.detectCount + 2 := by
  have h1 : finalizeDetection s
      = ({ s with manager := ⟨false, s.manager.stopCount + 1⟩,
                  isDetectionActive := false, isDetectionFinalizing := false,
                  detectCount := s.detectCount + 1 }, .returned) := by
    unfold finalizeDetection performDetection managerStopListening
    simp [hinit, hfin, hmodel, hmgr]
  have h2 : finalizeDetection (finalizeDetection s).1
      = ({ s with manager := ⟨false, s.manager.stopCount + 1⟩,
                  isDetectionActive := false, isDetectionFinalizing := false,
                  detectCount := s.detectCount + 2 }, .returned) := by
    rw [h1]
    unfold finalizeDetection performDetection managerStopListening
    simp [hinit, hmodel]
  rw [h2, h1]
  simp

/-- Witness for C6 on a concrete active detector state. -/
theorem finalize_twice_c6_witness :
    ((⟨true, true, true, false, ⟨true, 0⟩, 0⟩ : DetectorState).initialized = true
      ∧ (⟨true, true, true, false, ⟨true, 0⟩, 0⟩ : DetectorState).modelLoaded = true
      ∧ (⟨true, true, true, false, ⟨true, 0⟩, 0⟩ : DetectorState).isDetectionActive
          = true
      ∧ (⟨true, true, true, false, ⟨true, 0⟩, 0⟩ :
          DetectorState).isDetectionFinalizing = false
      ∧ (⟨true, true, true, false, ⟨true, 0⟩, 0⟩ :
          DetectorState).manager.isActive = true)
    ∧ ((finalizeDetection ⟨true, true, true, false, ⟨true, 0⟩, 0⟩).2 = .returned
      ∧ (finalizeDetection
          (finalizeDetection ⟨true, true, true, false, ⟨true, 0⟩, 0⟩).1).2
            = .returned
      ∧ (finalizeDetection ⟨true, true, true, false, ⟨true, 0⟩, 0⟩).1.manager.stopCount
          = (⟨true, true, true, false, ⟨true, 0⟩, 0⟩ :
              DetectorState).manager.stopCount + 1
      ∧ (finalizeDetection
          (finalizeDetection ⟨true, true, true, false, ⟨true, 0⟩, 0⟩).1).1.manager
            = (finalizeDetection ⟨true, true, true, false, ⟨true, 0⟩, 0⟩).1.manager
      ∧ (finalizeDetection ⟨true, true, true, false, ⟨true, 0⟩, 0⟩).1.detectCount
          = (⟨true, true, true, false, ⟨true, 0⟩, 0⟩ :
              DetectorState).detectCount + 1
      ∧ (finalizeDetection
          (finalizeDetection ⟨true, true, true, false, ⟨true, 0⟩, 0⟩).1).1.detectCount
            = (⟨true, true, true, false, ⟨true, 0⟩, 0⟩ :
                DetectorState).detectCount + 2) :=
  ⟨⟨rfl, rfl, rfl, rfl, rfl⟩,
    finalize_twice_c6 ⟨true, true, true, false, ⟨true, 0⟩, 0⟩ rfl rfl rfl rfl rfl⟩

/-- Lookup through the merge fold: the accumulator only matters where no
later feature object binds the key. -/
theorem foldl_assign_lookup (rs : List FeatureOutcome) :
    ∀ (acc : List (String × FeatValue)) (k : String),
      flookup (rs.foldl (fun acc r => r.features ++ acc) acc) k
        = rs.foldl (fun a r => (flookup r.features k).orElse fun _ => a)
            (flookup acc k) := by
  induction rs with
  | nil => intro acc k; rfl
  | cons r rs ih =>
    intro acc k
    simp only [List.foldl_cons]
    rw [ih (r.features ++ acc) k, flookup_append]

/-- Claim C4: in a detection cycle, a throwing/rejecting extractor is
replaced by its default feature set with `hasData = false`; a succeeding
extractor contributes its defaults underlying (overridden by) whatever
values it produced; and the merged vector is always produced, reading as
the `Object.assign` merge of all per-extractor contributions in order. -/
theorem extraction_cycle_resilience_c4 (es : List ExtractorSpec) :
    (∀ e, e ∈ es → ∀ msg, e.outcome = .failed msg →
        extractOne e = ⟨e.defaults, false⟩)
      ∧ (∀ e, e ∈ es → ∀ fr, e.outcome = .ok fr →
          (extractOne e).hasData = fr.hasData
            ∧ ∀ k, flookup (extractOne e).features k
                = (flookup fr.features k).orElse fun _ => flookup e.defaults k)
      ∧ (∀ k, flookup (combineCycle es) k = mergedLookup (es.map extractOne) k) := by
  refine ⟨?_, ?_, ?_⟩
  · intro e _ msg hmsg
    unfold extractOne
    rw [hmsg]
  · intro e _ fr hok
    unfold extractOne
    rw [hok]
    exact ⟨rfl, fun k => flookup_append fr.features e.defaults k⟩
  · intro k
    unfold combineCycle mergedLookup
    rw [foldl_assign_lookup]
    rfl

/-- Witness for C4: one failing and one succeeding extractor. -/
theorem extraction_cycle_resilience_c4_witness :
    ((⟨[("a", FeatValue.num 1)], .failed "boom"⟩ : ExtractorSpec)
        ∈ [(⟨[("a", FeatValue.num 1)], .failed "boom"⟩ : ExtractorSpec),
           ⟨[("b", FeatValue.num 2)], .ok ⟨[("b", FeatValue.num 3)], true⟩⟩]
      ∧ (⟨[("a", FeatValue.num 1)], .failed "boom"⟩ : ExtractorSpec).outcome
          = .failed "boom")
    ∧ extractOne ⟨[("a", FeatValue.num 1)], .failed "boom"⟩
        = ⟨[("a", FeatValue.num 1)], false⟩ :=
  ⟨⟨by decide, by decide⟩,
    (extraction_cycle_resilience_c4
        [⟨[("a", FeatValue.num 1)], .failed "boom"⟩,
         ⟨[("b", FeatValue.num 2)], .ok ⟨[("b", FeatValue.num 3)], true⟩⟩]).1
      _ (by decide) "boom" (by decide)⟩

/-- Claim C5: when the batched write of a non-empty, non-pending flush
fails, the buffer becomes the concatenation of the post-clear buffer (the
events that arrived during the write) with itself; no event of the failed
batch is re-inserted — everything in the new buffer arrived during the
write. -/
theorem flush_failure_rebuffer_c5 {α : Type} (s : StorageState α)
    (arrived : List α) (hne : s.buffer ≠ []) (hpend : s.isFlushPending = false) :
    (flushRun s false arrived).buffer = arrived ++ arrived
      ∧ (flushRun s false arrived).stored = s.stored
      ∧ ∀ e, e ∈ (flushRun s false arrived).buffer → e ∈ arrived := by
  have hlen : ¬ (s.buffer.length = 0 ∨ s.isFlushPending = true) := by
    rw [hpend]
    simp [List.length_eq_zero, hne]
  unfold flushRun
  rw [if_neg hlen, if_neg (by simp)]
  refine ⟨rfl, rfl, ?_⟩
  intro e he
  rcases List.mem_append.mp he with h | h <;> exact h

/-- Witness for C5 on a concrete two-event buffer with one in-flight
arrival: the failed batch `[1, 2]` is dropped, the arrival is doubled. -/
theorem flush_failure_rebuffer_c5_witness :
    (((⟨[1, 2], false, []⟩ : StorageState ℕ).buffer ≠ []
        ∧ (⟨[1, 2], false, []⟩ : StorageState ℕ).isFlushPending = false)
      ∧ (flushRun (⟨[1, 2], false, []⟩ : StorageState ℕ) false [3]).buffer
          = [3] ++ [3])
    ∧ (flushRun (⟨[1, 2], false, []⟩ : StorageState ℕ) false [3]).stored = []
    ∧ ∀ e, e ∈ (flushRun (⟨[1, 2], false, []⟩ : StorageState ℕ) false [3]).buffer
        → e ∈ [3] := by
  have h := flush_failure_rebuffer_c5 (⟨[1, 2], false, []⟩ : StorageState ℕ) [3]
    (by decide) (by decide)
  exact ⟨⟨⟨by decide, by decide⟩, h.1⟩, h.2.1, h.2.2⟩

/-- Claim C7 (code defect): on a 50 ms window with events timestamped
0, 10, 20, 60, the event at t=10 is processed immediately at the leading
edge — because processing the t=0 event left `lastProcessedTimestamp` at
the value 0, which the code cannot distinguish from its
"nothing processed yet" sentinel.  When the deferred flush for the pending
t=20 event runs after all arrivals, the handler log is
`0, 10, 60` (the t=20 event is dropped and never emitted by the trailing
flush); when that flush fires before the t=60 arrival, the log is
`0, 10, 20, 60` — four invocations.  Either way the behaviour differs from
the claimed `t=0`, then the last of `{10, 20}` via the deferred flush, then
`t=60`, never four. -/
theorem throttle_scenario_eval_c7 :
    throttleRun 50 [.arrive 0, .arrive 10, .arrive 20, .arrive 60, .fire 20]
        = [(0, false), (10, false), (60, false)]
      ∧ throttleRun 50
          [.arrive 0, .arrive 10, .arrive 20, .fire 20, .arrive 60, .fire 60]
        = [(0, false), (10, false), (20, true), (60, true)]
      ∧ ([(0, false), (10, false), (60, false)] : List (ℚ × Bool))
          ≠ [(0, false), (20, true), (60, false)] := by
  refine ⟨?_, ?_, ?_⟩ <;>
    norm_num [throttleRun, throttleStep, Option.some.injEq, reduceCtorEq]
  rw [if_neg (show ¬ ((none : Option ℚ) = some 20) by simp)]

/-- Claim C9 counterexample: replaying a zero-event snapshot dispatches
nothing, yet the Browser Metadata extractor reports `hasData = true`
(its metadata fetch succeeds independently of events), so not every
extractor reports `hasData = false`. -/
theorem zero_event_replay_counterexample_c9 :
    replayStartLog [] [] = []
      ∧ (browserMetadataExtract (.ok emptyMetadataSnapshot)).hasData = true
      ∧ true ≠ false :=
  ⟨rfl, rfl, by decide⟩

/-- Claim C9 (amended): replaying a zero-event snapshot completes `start()`
immediately without dispatching any event, and every event-based extractor
(pointer motion, keyboard, scroll, click) reports `hasData = false`; the
Browser Metadata extractor, however, reports `hasData = true` whenever its
metadata fetch succeeds — which in a replay environment it always does. -/
theorem zero_event_replay_c9 (listeners : List (String × ℕ))
    (md : BrowserMetadataSnapshot) :
    replayStartLog [] listeners = []
      ∧ (mouseExtractFeatures []).hasData = false
      ∧ (keyboardExtractFeatures []).hasData = false
      ∧ (scrollExtractFeatures []).hasData = false
      ∧ (clickExtractFeatures [] []).hasData = false
      ∧ (browserMetadataExtract (.ok md)).hasData = true :=
  ⟨rfl, rfl, rfl, rfl, rfl, rfl⟩

/-- The population standard deviation is nonnegative. -/
theorem popStdQ_nonneg (l : List ℚ) : 0 ≤ popStdQ l := Real.sqrt_nonneg _

/-- Every per-burst coefficient of variation is nonnegative. -/
theorem burstCV_nonneg (b : List ℚ) : 0 ≤ burstCV b := by
  unfold burstCV
  dsimp only
  split_ifs with h1 h2 h3
  · exact le_refl 0
  · exact div_nonneg (popStdQ_nonneg _) (by exact_mod_cast le_of_lt h2)
  · simp
  · exact le_refl 0

/-- Claim C8: the keyboard typing-consistency feature is exactly `-1` when
fewer than 2 key events exist or no burst of length at least 2 survives the
3000 ms gap split; otherwise it equals `1 - min(average CV across bursts, 1)`
and lies in `[0, 1]`. -/
theorem keyboard_consistency_c8 (evs : List ℚ) :
    (evs.length < 2 ∨ bursts evs = [] → typingConsistency evs = -1)
      ∧ (¬ (evs.length < 2 ∨ bursts evs = []) →
          typingConsistency evs
              = 1 - min (((bursts evs).map burstCV).sum
                  / (((bursts evs).map burstCV).length : ℝ)) 1
            ∧ 0 ≤ typingConsistency evs ∧ typingConsistency evs ≤ 1) := by
  constructor
  · intro h
    by_cases h1 : evs.length < 2
    · simp only [typingConsistency]
      rw [if_pos h1]
    · have h2 : bursts evs = [] := h.resolve_left h1
      simp only [typingConsistency]
      rw [if_neg h1, if_pos (by rw [h2]; rfl)]
  · intro h
    push_neg at h
    obtain ⟨h1, h2⟩ := h
    have hframe : typingConsistency evs
        = 1 - min (((bursts evs).map burstCV).sum
            / (((bursts evs).map burstCV).length : ℝ)) 1 := by
      simp only [typingConsistency]
      rw [if_neg (by omega), if_neg (by simpa [List.length_eq_zero] using h2)]
    have hnn : 0 ≤ ((bursts evs).map burstCV).sum := by
      apply List.sum_nonneg
      intro x hx
      obtain ⟨b, _, rfl⟩ := List.mem_map.mp hx
      exact burstCV_nonneg b
    have hA : 0 ≤ ((bursts evs).map burstCV).sum
        / (((bursts evs).map burstCV).length : ℝ) :=
      div_nonneg hnn (by positivity)
    refine ⟨hframe, ?_, ?_⟩
    · rw [hframe]
      have hm := min_le_right (((bursts evs).map burstCV).sum
          / (((bursts evs).map burstCV).length : ℝ)) (1 : ℝ)
      linarith
    · rw [hframe]
      have hm := le_min hA (zero_le_one (α := ℝ))
      linarith

/-- Witness for C8 on two key events 100 ms apart. -/
theorem keyboard_consistency_c8_witness :
    ¬ (([0, 100] : List ℚ).length < 2 ∨ bursts [0, 100] = [])
      ∧ (0 ≤ typingConsistency [0, 100] ∧ typingConsistency [0, 100] ≤ 1) := by
  have hh : ¬ (([0, 100] : List ℚ).length < 2 ∨ bursts [0, 100] = []) := by
    norm_num [bursts, sortQ, insertQ, burstLoop]
  exact ⟨hh, ((keyboard_consistency_c8 [0, 100]).2 hh).2⟩

end AgentDetect
